import Mathlib

/-!
Verification of the KBRJ Solutions client-side script (src/script.js):
the form validation and submission pipeline, and the scroll-driven
visibility and engagement observers.  The class-based implementation
(class KBRJSolutions) is the one embedded here, following the spec,
which designates it as canonical.

DOM-driven state is made explicit: a form is a record of its fields and
submit button, the document's elements relevant to messages are a list,
and each event listener becomes a function from the delivered event data
(scroll percentages, intersection flags) to updated state plus the list
of analytics events recorded via trackEvent.
-/

namespace KBRJ

/-- The whitespace characters matched by the JS regex class backslash-s
and trimmed by String.prototype.trim (ASCII portion, which covers every
string the script manipulates). -/
def jsWhitespace (c : Char) : Bool :=
  c == ' ' || c == '\t' || c == '\n' || c == '\r' || c == '\x0b' || c == '\x0c'

/-- Embedding of JS value.trim(): strip leading and trailing whitespace. -/
def jsTrim (s : String) : String :=
  String.mk (((s.toList.dropWhile (fun c => jsWhitespace c)).reverse.dropWhile
    (fun c => jsWhitespace c)).reverse)

/-- A character admitted by the regex class excluding whitespace and the
at-sign, as used in SECURITY.patterns.email. -/
def emailAtomChar (c : Char) : Bool :=
  !(jsWhitespace c) && c != '@'

/-- SECURITY.patterns.email: one or more non-space-non-at characters, an
at-sign, one or more such characters, a dot, one or more such characters.
Equivalently: exactly one at-sign, a nonempty local part, no whitespace,
and a dot strictly inside the part after the at-sign. -/
def emailMatch (s : String) : Bool :=
  match s.toList.splitOn '@' with
  | [a, d] =>
      a != [] && a.all emailAtomChar && d.all emailAtomChar &&
        ((d.drop 1).dropLast.contains '.')
  | _ => false

/-- An ASCII decimal digit, the regex class backslash-d. -/
def digitChar (c : Char) : Bool :=
  '0' ≤ c && c ≤ '9'

/-- SECURITY.patterns.phone: an optional leading plus sign, a first digit
between 1 and 9, then at most 15 further digits. -/
def phoneMatch (s : String) : Bool :=
  let l := if s.toList.head? == some '+' then s.toList.tail else s.toList
  match l with
  | [] => false
  | c :: rest => ('1' ≤ c && c ≤ '9') && rest.all digitChar && rest.length ≤ 15

/-- A character admitted by SECURITY.patterns.name: a letter, whitespace,
an apostrophe or a hyphen. -/
def nameChar (c : Char) : Bool :=
  ('a' ≤ c && c ≤ 'z') || ('A' ≤ c && c ≤ 'Z') || jsWhitespace c ||
    c == '\x27' || c == '-'

/-- SECURITY.patterns.name: 2 to 50 characters, each a letter, whitespace,
an apostrophe or a hyphen. -/
def nameMatch (s : String) : Bool :=
  2 ≤ s.toList.length && s.toList.length ≤ 50 && s.toList.all nameChar

/-- SECURITY.sanitizeInput: HTML-escape the text by routing it through a
text node, which escapes ampersand, less-than and greater-than. -/
def sanitizeInput (s : String) : String :=
  String.mk (s.toList.flatMap (fun c =>
    if c == '&' then ['&', 'a', 'm', 'p', ';']
    else if c == '<' then ['&', 'l', 't', ';']
    else if c == '>' then ['&', 'g', 't', ';']
    else [c]))

/-- One form input element.  `value` is the current (dirty) value and
`defaultValue` the value attribute it reverts to on form.reset();
`error` models the field-error element displayed next to the input
(none when no error is shown). -/
structure Field where
  name : String
  fieldType : String
  required : Bool
  value : String
  defaultValue : String
  error : Option String
deriving Repr, DecidableEq

/-- The submit button of a form: its text content and disabled flag. -/
structure Button where
  text : String
  disabled : Bool
deriving Repr, DecidableEq

/-- A form element: its class list, whether it is nested inside the
section with id contact (form.closest queries an ancestor), its input
and textarea fields, and its submit button if it has one. -/
structure Form where
  classes : List String
  inContact : Bool
  fields : List Field
  submitButton : Option Button
deriving Repr, DecidableEq

/-- One record appended by trackEvent: event name and payload entries. -/
structure TrackedEvent where
  name : String
  payload : List (String × String)
deriving Repr, DecidableEq

/-- A document element as seen by the message machinery: its class list
and text content. -/
structure MessageElem where
  classes : List String
  text : String
deriving Repr, DecidableEq

def requiredMessage : String := "This field is required"
def emailErrorMessage : String := "Please enter a valid email address"
def phoneErrorMessage : String := "Please enter a valid phone number"
def nameErrorMessage : String := "Please enter a valid name (2-50 characters)"

/-- validateField: trims the value, clears any previous error, applies
the required check first, then the type-specific pattern check on
non-empty values (email and tel by input type, name pattern for a text
input named name).  Returns the field with its updated error display
and the boolean validity. -/
def validateField (f0 : Field) : Field × Bool :=
  let value := jsTrim f0.value
  let f : Field := { f0 with error := none }
  if f.required && value == "" then
    ({ f with error := some (sanitizeInput requiredMessage) }, false)
  else if value != "" then
    if f.fieldType == "email" then
      if !(emailMatch value) then
        ({ f with error := some (sanitizeInput emailErrorMessage) }, false)
      else (f, true)
    else if f.fieldType == "tel" then
      if !(phoneMatch value) then
        ({ f with error := some (sanitizeInput phoneErrorMessage) }, false)
      else (f, true)
    else if f.fieldType == "text" then
      if f.name == "name" && !(nameMatch value) then
        ({ f with error := some (sanitizeInput nameErrorMessage) }, false)
      else (f, true)
    else (f, true)
  else (f, true)

/-- validateForm: runs validateField over every field (forEach, so no
short-circuit), accumulating the updated fields and the conjunction of
the results. -/
def validateForm (fields : List Field) : List Field × Bool :=
  fields.foldl
    (fun acc f =>
      let r := validateField f
      (acc.1 ++ [r.1], acc.2 && r.2))
    ([], true)

/-- getFormType: early-access for a form with the email-form class,
contact for a form nested inside the contact section, default otherwise. -/
def getFormType (form : Form) : String :=
  if form.classes.contains "email-form" then "early-access"
  else if form.inContact then "contact"
  else "default"

/-- CONFIG.FORM_TIMEOUT: the fixed simulated network delay (ms). -/
def FORM_TIMEOUT : Nat := 2000

/-- CONFIG.MESSAGE_TIMEOUT: the auto-hide delay of a message (ms). -/
def MESSAGE_TIMEOUT : Nat := 5000

/-- The response object resolved by the transport stub. -/
structure SubmitResponse where
  success : Bool
  message : String
deriving Repr, DecidableEq

/-- submitForm: the transport stub.  It suspends for CONFIG.FORM_TIMEOUT
milliseconds (the returned Nat) and then resolves with a success
response; it never rejects, which the Except models. -/
def submitForm (data : List (String × String)) (formType : String) :
    Nat × Except String SubmitResponse :=
  (FORM_TIMEOUT, Except.ok ⟨true, "Form submitted successfully"⟩)

/-- showFormLoading: set the submit button (if any) to the sending text
and disable it. -/
def showFormLoading (form : Form) : Form :=
  if form.submitButton.isSome then
    { form with submitButton := some ⟨"Sending...", true⟩ }
  else form

/-- hideFormLoading: set the submit button (if any) back to the idle
text and enable it.  Runs in the finally step of every submission. -/
def hideFormLoading (form : Form) : Form :=
  if form.submitButton.isSome then
    { form with submitButton := some ⟨"Send Message", false⟩ }
  else form

/-- prepareSubmissionData: the flat field entries plus the classified
form type and the submission timestamp. -/
def prepareSubmissionData (entries : List (String × String))
    (formType ts : String) : List (String × String) :=
  entries ++ [("formType", formType), ("timestamp", ts)]

/-- The message element created by showMessage: classes message and
type-message, with the sanitized text. -/
def mkMessage (text kind : String) : MessageElem :=
  ⟨["message", kind ++ "-message"], sanitizeInput text⟩

/-- removeExistingMessages: remove every element matching the .message
selector, that is whose class list contains message. -/
def removeExistingMessages (doc : List MessageElem) : List MessageElem :=
  doc.filter (fun m => !(m.classes.contains "message"))

/-- showMessage: remove all existing messages, append the new message
element, and record a message_display event whose payload carries the
kind and the first 50 characters of the text. -/
def showMessage (doc : List MessageElem) (text kind : String) :
    List MessageElem × TrackedEvent :=
  (removeExistingMessages doc ++ [mkMessage text kind],
   ⟨"message_display", [("type", kind), ("message", String.mk (text.toList.take 50))]⟩)

/-- The success message chosen by showFormSuccess for each classified
form type, falling back to the default entry for any other key. -/
def successMessageFor (formType : String) : String :=
  if formType == "early-access" then
    "Thank you! You\x27re now on our early access list. We\x27ll notify you as soon as we launch."
  else if formType == "contact" then
    "Thank you! We\x27ll get back to you within 24 hours."
  else "Form submitted successfully!"

/-- The observable outcome of one handleFormSubmission call: the form
afterwards, the document message elements, the analytics events recorded
during the call, how many times the transport stub was invoked, and
whether the loading state was signalled. -/
structure SubmissionOutcome where
  form : Form
  doc : List MessageElem
  events : List TrackedEvent
  transportCalls : Nat
  loadingShown : Bool
deriving Repr, DecidableEq

/-- handleFormSubmission: capture the form data and classified type,
validate (updating every field's error display); on failure return after
only the finally step (hideFormLoading); on success show the loading
state, build the payload, call the transport stub, then show the success
message, record the form_submission_success event, reset every field to
its default value, and run the finally step.  A rejection of the stub
would take the catch branch (error message plus form_submission_error
event); the stub never rejects. -/
def handleFormSubmission (doc : List MessageElem) (form : Form) (ts : String) :
    SubmissionOutcome :=
  let entries := form.fields.map (fun f => (f.name, f.value))
  let formType := getFormType form
  let v := validateForm form.fields
  let form1 : Form := { form with fields := v.1 }
  if !v.2 then
    ⟨hideFormLoading form1, doc, [], 0, false⟩
  else
    let form2 := showFormLoading form1
    let r := submitForm (prepareSubmissionData entries formType ts) formType
    match r.2 with
    | Except.ok _ =>
        let sm := showMessage doc (successMessageFor formType) "success"
        let form3 : Form :=
          { form2 with fields := form2.fields.map (fun f => { f with value := f.defaultValue }) }
        ⟨hideFormLoading form3, sm.1,
         [sm.2, ⟨"form_submission_success", [("form_type", formType)]⟩], 1, true⟩
    | Except.error e =>
        let sm := showMessage doc e "error"
        ⟨hideFormLoading form2, sm.1,
         [sm.2, ⟨"form_submission_error", [("form_type", formType), ("error", e)]⟩], 1, true⟩

/-- trackScrollDepth: per scroll event the rounded percentage is compared
with the running maximum; when it exceeds it the maximum is updated and,
when the new maximum is an exact multiple of 25, a scroll_depth event
with that depth is recorded.  Returns the final maximum and the recorded
depths in order. -/
def trackScrollDepth (maxScroll : Nat) : List Nat → Nat × List Nat
  | [] => (maxScroll, [])
  | p :: ps =>
    if maxScroll < p then
      if p % 25 = 0 then
        ((trackScrollDepth p ps).1, p :: (trackScrollDepth p ps).2)
      else trackScrollDepth p ps
    else trackScrollDepth maxScroll ps

/-- A page section as the section observer sees it: its id and class
list. -/
structure Section where
  id : String
  classes : List String
deriving Repr, DecidableEq

/-- classList.add of one token: appended unless already present. -/
def addClass (classes : List String) (c : String) : List String :=
  if c ∈ classes then classes else classes ++ [c]

/-- entry.target.id falling back to the class string when the id is
empty, as in the section_view payload. -/
def sectionIdOf (s : Section) : String :=
  if s.id == "" then String.intercalate " " s.classes else s.id

/-- One delivery to the section observer callback: on an intersecting
entry add the visible and loaded classes and record a section_view
event keyed by the section identity; otherwise do nothing.  The
observer never unobserves the section. -/
def sectionObserverStep (s : Section) (isIntersecting : Bool) :
    Section × List TrackedEvent :=
  if isIntersecting then
    let s2 : Section := ⟨s.id, addClass (addClass s.classes "visible") "loaded"⟩
    (s2, [⟨"section_view", [("section", sectionIdOf s2)]⟩])
  else (s, [])

/-- The section observer of initScrollAnimations applied to a sequence
of intersection deliveries for one section. -/
def initScrollAnimations (s : Section) : List Bool → Section × List TrackedEvent
  | [] => (s, [])
  | c :: cs =>
    let r := sectionObserverStep s c
    let r2 := initScrollAnimations r.1 cs
    (r2.1, r.2 ++ r2.2)

/-- getServiceType: classify a service card by its class list. -/
def getServiceType (classes : List String) : String :=
  if classes.contains "pet-insurance" then "pet-insurance"
  else if classes.contains "healthcare" then "healthcare"
  else if classes.contains "business-automation" then "business-automation"
  else "unknown"

/-- The one-shot observer pattern: while the element is observed, the
first intersecting delivery records the event and unobserves the element
(so no later delivery occurs for it); once unobserved, nothing further
is delivered or recorded. -/
def oneShotRun (ev : TrackedEvent) (observed : Bool) :
    List Bool → Bool × List TrackedEvent
  | [] => (observed, [])
  | c :: cs =>
    if observed && c then
      (((oneShotRun ev false cs).1), ev :: (oneShotRun ev false cs).2)
    else oneShotRun ev observed cs

/-- trackServiceInterest for one service card: one-shot observation
recording a service_interest event with the card's service type. -/
def trackServiceInterest (classes : List String) (cs : List Bool) :
    List TrackedEvent :=
  (oneShotRun ⟨"service_interest", [("service", getServiceType classes), ("action", "view")]⟩
    true cs).2

/-- trackBusinessGoals for one business section: one-shot observation
recording a business_goal event for that section id. -/
def trackBusinessGoals (sectionId : String) (cs : List Bool) :
    List TrackedEvent :=
  (oneShotRun ⟨"business_goal", [("goal", "view_" ++ sectionId)]⟩ true cs).2

example : (trackScrollDepth 0 (List.range 101)).2 = [25, 50, 75, 100] := by decide
example : (trackScrollDepth 0 [10, 60, 75]).2 = [75] := by decide
example :
    (handleFormSubmission [] ⟨[], false, [⟨"email", "email", true, "", "", none⟩],
      some ⟨"Submit", false⟩⟩ "t").form.submitButton = some ⟨"Send Message", false⟩ := by decide
example :
    (handleFormSubmission [] ⟨[], false, [⟨"email", "email", true, "", "", none⟩],
      some ⟨"Submit", false⟩⟩ "t").transportCalls = 0 := by decide
example :
    ((handleFormSubmission [] ⟨[], false, [⟨"company", "text", false, "Acme", "pre", none⟩],
      some ⟨"Send", false⟩⟩ "t").form.fields.map Field.value) = ["pre"] := by decide
example :
    ((handleFormSubmission [] ⟨["email-form"], false,
      [⟨"email", "email", true, "a@b.co", "", none⟩], some ⟨"Join", false⟩⟩ "t").events.map
      TrackedEvent.name) = ["message_display", "form_submission_success"] := by decide
example : (initScrollAnimations ⟨"about", ["loading"]⟩ [true, true]).2.length = 2 := by decide
example : (trackServiceInterest ["service-card", "healthcare"] [true, false, true]).length = 1 := by
  decide

example : jsTrim "  a b " = "a b" := by decide

/-! ## Scroll-depth tracker lemmas -/

theorem trackScrollDepth_le_final (ps : List Nat) :
    ∀ m : Nat, m ≤ (trackScrollDepth m ps).1 := by
  induction ps with
  | nil => intro m; simp [trackScrollDepth]
  | cons p ps ih =>
    intro m
    simp only [trackScrollDepth]
    split_ifs with h h25
    · exact le_trans (le_of_lt h) (ih p)
    · exact le_trans (le_of_lt h) (ih p)
    · exact ih m

theorem trackScrollDepth_mem (ps : List Nat) :
    ∀ m : Nat, ∀ e ∈ (trackScrollDepth m ps).2,
      m < e ∧ e % 25 = 0 ∧ e ≤ (trackScrollDepth m ps).1 := by
  induction ps with
  | nil => intro m e he; simp [trackScrollDepth] at he
  | cons p ps ih =>
    intro m e he
    simp only [trackScrollDepth] at he ⊢
    split_ifs at he ⊢ with h h25
    · rcases List.mem_cons.mp he with rfl | he2
      · exact ⟨h, h25, trackScrollDepth_le_final ps e⟩
      · obtain ⟨h1, h2, h3⟩ := ih p e he2
        exact ⟨lt_trans h h1, h2, h3⟩
    · obtain ⟨h1, h2, h3⟩ := ih p e he
      exact ⟨lt_trans h h1, h2, h3⟩
    · exact ih m e he

theorem trackScrollDepth_pairwise (ps : List Nat) :
    ∀ m : Nat, ((trackScrollDepth m ps).2).Pairwise (fun a b => a < b) := by
  induction ps with
  | nil => intro m; simp [trackScrollDepth]
  | cons p ps ih =>
    intro m
    simp only [trackScrollDepth]
    split_ifs with h h25
    · exact List.Pairwise.cons (fun e he => (trackScrollDepth_mem ps p e he).1) (ih p)
    · exact ih p
    · exact ih m

theorem trackScrollDepth_crossing (ps : List Nat) :
    ∀ prev m : Nat, prev ≤ m →
      List.Chain' (fun a b => b ≤ a + 1) (prev :: ps) →
      ∀ t, t % 25 = 0 → m < t → t ≤ (trackScrollDepth m ps).1 →
      t ∈ (trackScrollDepth m ps).2 := by
  induction ps with
  | nil =>
    intro prev m _ _ t _ hmt hle
    exfalso
    simp only [trackScrollDepth] at hle
    omega
  | cons p ps ih =>
    intro prev m hpm hchain t ht25 hmt hle
    obtain ⟨hp, hchain2⟩ := List.chain'_cons.mp hchain
    simp only [trackScrollDepth] at hle ⊢
    split_ifs at hle ⊢ with h h25
    · rcases Nat.eq_or_lt_of_le (show p ≤ t by omega) with heq | hlt
      · exact heq ▸ List.mem_cons_self p _
      · exact List.mem_cons_of_mem p (ih p p (le_refl p) hchain2 t ht25 hlt hle)
    · have hlt : p < t := by
        rcases Nat.eq_or_lt_of_le (show p ≤ t by omega) with heq | hlt
        · exact absurd (heq ▸ ht25) h25
        · exact hlt
      exact ih p p (le_refl p) hchain2 t ht25 hlt hle
    · exact ih p m (Nat.le_of_not_lt h) hchain2 t ht25 hmt hle

/-- C1: over any continuous scroll trace (each scroll event's rounded
percentage exceeds its predecessor by at most one, starting from 0) that
reaches 100% of the scrollable height, the tracker records exactly the
depth sequence 25, 50, 75, 100; over any trace at all, the recorded
depths are strictly increasing (so each multiple-of-25 threshold fires
at most once and no recorded value is smaller than an earlier one) and
are multiples of 25; and over any continuous trace, every multiple-of-25
threshold the running maximum crosses is recorded. -/
theorem scroll_depth_thresholds :
    (∀ ps : List Nat, List.Chain' (fun a b => b ≤ a + 1) (0 :: ps) →
      (trackScrollDepth 0 ps).1 = 100 →
      (trackScrollDepth 0 ps).2 = [25, 50, 75, 100]) ∧
    (∀ ps : List Nat, ((trackScrollDepth 0 ps).2).Pairwise (fun a b => a < b)) ∧
    (∀ ps : List Nat, List.Chain' (fun a b => b ≤ a + 1) (0 :: ps) →
      ∀ t, t % 25 = 0 → 0 < t → t ≤ (trackScrollDepth 0 ps).1 →
      t ∈ (trackScrollDepth 0 ps).2) ∧
    (∀ ps : List Nat, ∀ e ∈ (trackScrollDepth 0 ps).2, e % 25 = 0) := by
  have hcross : ∀ ps : List Nat, List.Chain' (fun a b => b ≤ a + 1) (0 :: ps) →
      ∀ t, t % 25 = 0 → 0 < t → t ≤ (trackScrollDepth 0 ps).1 →
      t ∈ (trackScrollDepth 0 ps).2 :=
    fun ps hchain => trackScrollDepth_crossing ps 0 0 (le_refl 0) hchain
  refine ⟨?_, fun ps => trackScrollDepth_pairwise ps 0, hcross,
    fun ps e he => (trackScrollDepth_mem ps 0 e he).2.1⟩
  intro ps hchain hfinal
  have hmem : ∀ e, e ∈ (trackScrollDepth 0 ps).2 ↔ e ∈ [25, 50, 75, 100] := by
    intro e
    constructor
    · intro he
      obtain ⟨h1, h2, h3⟩ := trackScrollDepth_mem ps 0 e he
      rw [hfinal] at h3
      have : e = 25 ∨ e = 50 ∨ e = 75 ∨ e = 100 := by omega
      rcases this with rfl | rfl | rfl | rfl <;> simp
    · intro he
      have h4 : e = 25 ∨ e = 50 ∨ e = 75 ∨ e = 100 := by simpa using he
      refine hcross ps hchain e (by omega) (by omega) ?_
      rw [hfinal]; omega
  have hs1 : List.Sorted (fun a b : Nat => a < b) (trackScrollDepth 0 ps).2 :=
    trackScrollDepth_pairwise ps 0
  have hs2 : List.Sorted (fun a b : Nat => a < b) [25, 50, 75, 100] := by decide
  exact List.eq_of_perm_of_sorted
    ((List.perm_ext_iff_of_nodup hs1.nodup hs2.nodup).mpr hmem) hs1 hs2

theorem chain_le_succ_zero_range :
    List.Chain' (fun a b => b ≤ a + 1) (0 :: List.range 101) := by
  refine List.chain'_cons'.mpr ⟨?_, ?_⟩
  · intro y hy
    rw [List.range_succ_eq_map] at hy
    simp only [List.head?_cons, Option.mem_def, Option.some.injEq] at hy
    omega
  · rw [show (101 : Nat) = 100 + 1 from rfl, List.chain'_range_succ]
    intro m _
    omega

/-- Witness for C1: the canonical continuous page view visiting every
integer percentage from 0 to 100 records exactly 25, 50, 75, 100. -/
theorem scroll_depth_thresholds_witness :
    (trackScrollDepth 0 (List.range 101)).2 = [25, 50, 75, 100] ∧
    50 ∈ (trackScrollDepth 0 (List.range 101)).2 :=
  ⟨scroll_depth_thresholds.1 (List.range 101) chain_le_succ_zero_range (by decide),
   scroll_depth_thresholds.2.2.1 (List.range 101) chain_le_succ_zero_range 50 (by decide)
     (by decide) (by decide)⟩
example : emailMatch "a@b.co" = true := by decide
example : emailMatch "abc" = false := by decide
example : emailMatch "a@b" = false := by decide
example : emailMatch "a@b." = false := by decide
example : emailMatch "a@.b" = false := by decide
example : emailMatch "a b@c.d" = false := by decide
example : phoneMatch "+15551234" = true := by decide
example : phoneMatch "0123" = false := by decide
example : nameMatch "Mary-Jane" = true := by decide
example : nameMatch "A" = false := by decide
example : (validateField ⟨"email", "email", true, "", "", none⟩).2 = false := by decide
example : (validateField ⟨"email", "email", true, "", "", none⟩).1.error
    = some "This field is required" := by decide
example : (validateField ⟨"email", "email", false, "a@b.co", "", none⟩).2 = true := by decide


/-! ## Field and form validation lemmas -/

theorem sanitizeInput_requiredMessage : sanitizeInput requiredMessage = requiredMessage := by
  decide

theorem sanitizeInput_emailErrorMessage :
    sanitizeInput emailErrorMessage = emailErrorMessage := by decide

theorem sanitizeInput_phoneErrorMessage :
    sanitizeInput phoneErrorMessage = phoneErrorMessage := by decide

theorem sanitizeInput_nameErrorMessage :
    sanitizeInput nameErrorMessage = nameErrorMessage := by decide

theorem validateField_value (f : Field) : (validateField f).1.value = f.value := by
  simp only [validateField]
  split_ifs <;> rfl

theorem validateField_defaultValue (f : Field) :
    (validateField f).1.defaultValue = f.defaultValue := by
  simp only [validateField]
  split_ifs <;> rfl

theorem validateForm_go (fs : List Field) :
    ∀ (acc : List Field) (b : Bool),
      fs.foldl
        (fun acc f =>
          let r := validateField f
          (acc.1 ++ [r.1], acc.2 && r.2)) (acc, b) =
      (acc ++ fs.map (fun f => (validateField f).1),
        b && fs.all (fun f => (validateField f).2)) := by
  induction fs with
  | nil => intro acc b; simp
  | cons f fs ih =>
    intro acc b
    simp only [List.foldl_cons, List.map_cons, List.all_cons]
    rw [ih]
    simp [Bool.and_assoc]

theorem validateForm_spec (fs : List Field) :
    validateForm fs =
      (fs.map (fun f => (validateField f).1), fs.all (fun f => (validateField f).2)) := by
  unfold validateForm
  simpa using validateForm_go fs [] true

/-- C6: validateField applies the required check first: a required field
whose trimmed value is empty is invalid with the required-field message
whatever its type; a non-required field with an empty trimmed value is
valid; the kind-specific pattern test (email, tel, name on a text field
named name) runs only on non-empty values, failing with the
kind-specific message on mismatch; everything else is valid. -/
theorem validateField_required_first (f : Field) :
    (f.required = true → jsTrim f.value = "" →
      validateField f = ({ f with error := some "This field is required" }, false)) ∧
    (f.required = false → jsTrim f.value = "" →
      validateField f = ({ f with error := none }, true)) ∧
    (jsTrim f.value ≠ "" → f.fieldType = "email" →
      validateField f =
        (if emailMatch (jsTrim f.value) then ({ f with error := none }, true)
         else ({ f with error := some "Please enter a valid email address" }, false))) ∧
    (jsTrim f.value ≠ "" → f.fieldType = "tel" →
      validateField f =
        (if phoneMatch (jsTrim f.value) then ({ f with error := none }, true)
         else ({ f with error := some "Please enter a valid phone number" }, false))) ∧
    (jsTrim f.value ≠ "" → f.fieldType = "text" → f.name = "name" →
      validateField f =
        (if nameMatch (jsTrim f.value) then ({ f with error := none }, true)
         else ({ f with error := some "Please enter a valid name (2-50 characters)" },
           false))) ∧
    (jsTrim f.value ≠ "" → f.fieldType ≠ "email" → f.fieldType ≠ "tel" →
      (f.fieldType = "text" → f.name ≠ "name") →
      validateField f = ({ f with error := none }, true)) := by
  refine ⟨?_, ?_, ?_, ?_, ?_, ?_⟩
  · intro hreq hval
    simp [validateField, hreq, hval]
    decide
  · intro hreq hval
    simp [validateField, hreq, hval]
  · intro hval hty
    by_cases hm : emailMatch (jsTrim f.value) <;>
      simp [validateField, hval, hty, hm] <;> decide
  · intro hval hty
    by_cases hm : phoneMatch (jsTrim f.value) <;>
      simp [validateField, hval, hty, hm] <;> decide
  · intro hval hty hname
    by_cases hm : nameMatch (jsTrim f.value) <;>
      simp [validateField, hval, hty, hname, hm] <;> decide
  · intro hval hty1 hty2 hty3
    by_cases ht : f.fieldType = "text"
    · simp [validateField, hval, hty1, hty2, ht, hty3 ht]
    · simp [validateField, hval, hty1, hty2, ht]

/-- Witness for C6: a required empty email field fails with the
required-field message; a non-required field holding an address matching
the pattern passes; one holding a non-address fails with the email
message; a non-required empty field is valid. -/
theorem validateField_required_first_witness :
    validateField ⟨"email", "email", true, "   ", "", none⟩ =
      (⟨"email", "email", true, "   ", "", some "This field is required"⟩, false) ∧
    validateField ⟨"email", "email", false, "a@b.co", "", none⟩ =
      (⟨"email", "email", false, "a@b.co", "", none⟩, true) ∧
    validateField ⟨"email", "email", false, "abc", "", none⟩ =
      (⟨"email", "email", false, "abc", "",
        some "Please enter a valid email address"⟩, false) ∧
    validateField ⟨"note", "textarea", false, "", "", none⟩ =
      (⟨"note", "textarea", false, "", "", none⟩, true) :=
  ⟨(validateField_required_first _).1 rfl (by decide),
   by rw [(validateField_required_first _).2.2.1 (by decide) rfl]; decide,
   by rw [(validateField_required_first _).2.2.1 (by decide) rfl]; decide,
   (validateField_required_first _).2.1 rfl (by decide)⟩

/-- C7: validateForm returns true exactly when every contained field
independently validates true, and it runs validateField on every field
without short-circuiting: each output field carries the error display
its own validation produced, whatever the earlier fields did. -/
theorem validateForm_all_fields (fs : List Field) :
    (validateForm fs).2 = fs.all (fun f => (validateField f).2) ∧
    (validateForm fs).1 = fs.map (fun f => (validateField f).1) := by
  rw [validateForm_spec]
  exact ⟨rfl, rfl⟩

/-! ## Submission pipeline lemmas -/

theorem hideFormLoading_fields (form : Form) :
    (hideFormLoading form).fields = form.fields := by
  unfold hideFormLoading
  split_ifs <;> rfl

theorem validateForm_false_of_exists (fs : List Field)
    (h : ∃ f ∈ fs, (validateField f).2 = false) : (validateForm fs).2 = false := by
  rw [validateForm_spec]
  show fs.all (fun g => (validateField g).2) = false
  obtain ⟨f, hf, hval⟩ := h
  cases hall : fs.all (fun g => (validateField g).2)
  · rfl
  · exact absurd (List.all_eq_true.mp hall f hf) (by simp [hval])

theorem validateForm_true_of_forall (fs : List Field)
    (h : ∀ f ∈ fs, (validateField f).2 = true) : (validateForm fs).2 = true := by
  rw [validateForm_spec]
  show fs.all (fun g => (validateField g).2) = true
  exact List.all_eq_true.mpr h

theorem validateForm_map_value (fs : List Field) :
    ((validateForm fs).1.map Field.value) = fs.map Field.value := by
  rw [validateForm_spec]
  show ((fs.map (fun f => (validateField f).1)).map Field.value) = _
  induction fs with
  | nil => rfl
  | cons f fs ih => simp only [List.map_cons, validateField_value, ih]

theorem reset_validated_values (fs : List Field) :
    (((validateForm fs).1.map (fun f => { f with value := f.defaultValue })).map Field.value)
      = fs.map Field.defaultValue := by
  rw [validateForm_spec]
  show (((fs.map (fun f => (validateField f).1)).map
      (fun f => { f with value := f.defaultValue })).map Field.value) = _
  induction fs with
  | nil => rfl
  | cons f fs ih => simp only [List.map_cons, List.map_nil, validateField_defaultValue, ih]

theorem handleFormSubmission_invalid (doc : List MessageElem) (form : Form) (ts : String)
    (h : (validateForm form.fields).2 = false) :
    handleFormSubmission doc form ts =
      ⟨hideFormLoading { form with fields := (validateForm form.fields).1 },
        doc, [], 0, false⟩ := by
  simp [handleFormSubmission, h]

theorem handleFormSubmission_valid (doc : List MessageElem) (form : Form) (ts : String)
    (h : (validateForm form.fields).2 = true) :
    handleFormSubmission doc form ts =
      ⟨⟨form.classes, form.inContact,
          (validateForm form.fields).1.map (fun f => { f with value := f.defaultValue }),
          (hideFormLoading form).submitButton⟩,
        removeExistingMessages doc ++
          [mkMessage (successMessageFor (getFormType form)) "success"],
        [⟨"message_display",
            [("type", "success"),
             ("message", String.mk ((successMessageFor (getFormType form)).toList.take 50))]⟩,
         ⟨"form_submission_success", [("form_type", getFormType form)]⟩],
        1, true⟩ := by
  cases hb : form.submitButton with
  | none =>
    simp [handleFormSubmission, h, showFormLoading, hideFormLoading, hb, showMessage,
      submitForm]
  | some b =>
    simp [handleFormSubmission, h, showFormLoading, hideFormLoading, hb, showMessage,
      submitForm]

/-- A form whose only field is a required empty email input: validation
fails on it. -/
def sampleInvalidForm : Form :=
  Form.mk [] false [⟨"email", "email", true, "", "", none⟩] (some ⟨"Submit", false⟩)

/-- An email-capture form with a valid address and an empty default. -/
def sampleValidForm : Form :=
  Form.mk ["email-form"] false [⟨"email", "email", true, "a@b.co", "", none⟩]
    (some ⟨"Join", false⟩)

/-- A valid form whose field declares a non-empty default value. -/
def samplePrefilledForm : Form :=
  Form.mk [] false [⟨"company", "text", false, "Acme", "prefilled", none⟩]
    (some ⟨"Send", false⟩)

/-- C2 (amended): when at least one field fails validation, submission
aborts with no transport attempt, no loading state signalled, no event
recorded, no message shown and unchanged field values; the only state
change beyond the per-field error displays is the finally step, which
unconditionally resets the submit control to its idle state (text
Send Message, enabled) rather than leaving its text and enabled state
unchanged. -/
theorem invalid_submission_aborts (doc : List MessageElem) (form : Form) (ts : String)
    (h : ∃ f ∈ form.fields, (validateField f).2 = false) :
    (handleFormSubmission doc form ts).transportCalls = 0 ∧
    (handleFormSubmission doc form ts).loadingShown = false ∧
    (handleFormSubmission doc form ts).events = [] ∧
    (handleFormSubmission doc form ts).doc = doc ∧
    ((handleFormSubmission doc form ts).form.fields.map Field.value =
      form.fields.map Field.value) ∧
    (handleFormSubmission doc form ts).form.submitButton =
      (hideFormLoading form).submitButton := by
  rw [handleFormSubmission_invalid doc form ts (validateForm_false_of_exists form.fields h)]
  refine ⟨rfl, rfl, rfl, rfl, ?_, ?_⟩
  · show (hideFormLoading
        { form with fields := (validateForm form.fields).1 }).fields.map Field.value = _
    rw [hideFormLoading_fields]
    exact validateForm_map_value form.fields
  · show (hideFormLoading
        { form with fields := (validateForm form.fields).1 }).submitButton = _
    simp only [hideFormLoading]
    split_ifs <;> rfl

/-- C2 counterexample: submitting a form with an invalid field whose
submit button reads Submit leaves the button reading Send Message, so
the submit control's text is changed, contradicting the claim as
stated. -/
theorem invalid_submission_aborts_counterexample :
    (∃ f ∈ sampleInvalidForm.fields, (validateField f).2 = false) ∧
    (handleFormSubmission [] sampleInvalidForm "t").form.submitButton ≠
      sampleInvalidForm.submitButton := by
  decide

/-- Witness for C2 (amended) at the sample invalid form. -/
theorem invalid_submission_aborts_witness :
    (handleFormSubmission [] sampleInvalidForm "t").loadingShown = false ∧
    (handleFormSubmission [] sampleInvalidForm "t").events = [] ∧
    ((handleFormSubmission [] sampleInvalidForm "t").form.fields.map Field.value =
      sampleInvalidForm.fields.map Field.value) :=
  ⟨(invalid_submission_aborts [] sampleInvalidForm "t" (by decide)).2.1,
   (invalid_submission_aborts [] sampleInvalidForm "t" (by decide)).2.2.1,
   (invalid_submission_aborts [] sampleInvalidForm "t" (by decide)).2.2.2.2.1⟩

/-- C4: submitting a form with at least one invalid field never invokes
the transport stub. -/
theorem invalid_submission_no_transport (doc : List MessageElem) (form : Form) (ts : String)
    (h : ∃ f ∈ form.fields, (validateField f).2 = false) :
    (handleFormSubmission doc form ts).transportCalls = 0 := by
  rw [handleFormSubmission_invalid doc form ts (validateForm_false_of_exists form.fields h)]

/-- Witness for C4 at the sample invalid form. -/
theorem invalid_submission_no_transport_witness :
    (handleFormSubmission [] sampleInvalidForm "t").transportCalls = 0 :=
  invalid_submission_no_transport [] sampleInvalidForm "t" (by decide)

/-- C5 (amended): when every field validates, the completed submission
resets every field to its default value (the empty string for a field
declared without one; form.reset restores defaults rather than clearing
unconditionally) and records exactly one form_submission_success event
whose form_type is the form's classified type. -/
theorem success_submission_resets_and_records (doc : List MessageElem) (form : Form)
    (ts : String) (h : ∀ f ∈ form.fields, (validateField f).2 = true) :
    ((handleFormSubmission doc form ts).form.fields.map Field.value =
      form.fields.map Field.defaultValue) ∧
    ((handleFormSubmission doc form ts).events.filter
        (fun e => e.name == "form_submission_success") =
      [⟨"form_submission_success", [("form_type", getFormType form)]⟩]) := by
  rw [handleFormSubmission_valid doc form ts (validateForm_true_of_forall form.fields h)]
  exact ⟨reset_validated_values form.fields, rfl⟩

/-- C5 counterexample: a completed submission of a valid form whose only
field declares default value prefilled leaves the field holding
prefilled, not the empty string. -/
theorem success_submission_resets_counterexample :
    (∀ f ∈ samplePrefilledForm.fields, (validateField f).2 = true) ∧
    ((handleFormSubmission [] samplePrefilledForm "t").form.fields.map Field.value ≠
      [""]) := by
  decide

/-- Witness for C5 (amended): the email-capture form with empty defaults
is cleared and records one early-access success event. -/
theorem success_submission_resets_and_records_witness :
    ((handleFormSubmission [] sampleValidForm "t").form.fields.map Field.value = [""]) ∧
    ((handleFormSubmission [] sampleValidForm "t").events.filter
        (fun e => e.name == "form_submission_success") =
      [⟨"form_submission_success", [("form_type", "early-access")]⟩]) := by
  obtain ⟨h1, h2⟩ := success_submission_resets_and_records [] sampleValidForm "t" (by decide)
  refine ⟨by rw [h1]; decide, by rw [h2]; decide⟩

/-- C9: the transport stub resolves successfully after the configured
fixed delay whatever the payload, and consequently the submission-error
branch is unreachable: no run of the submission handler records a
form_submission_error event, and every message it displays is a success
message. -/
theorem transport_always_succeeds :
    (∀ (data : List (String × String)) (formType : String),
      submitForm data formType =
        (FORM_TIMEOUT, Except.ok ⟨true, "Form submitted successfully"⟩)) ∧
    (∀ (doc : List MessageElem) (form : Form) (ts : String),
      ((handleFormSubmission doc form ts).events.filter
        (fun e => e.name == "form_submission_error")) = [] ∧
      (∀ e ∈ (handleFormSubmission doc form ts).events, e.name = "message_display" →
        ("type", "success") ∈ e.payload)) := by
  refine ⟨fun data formType => rfl, fun doc form ts => ?_⟩
  cases hv : (validateForm form.fields).2
  · rw [handleFormSubmission_invalid doc form ts hv]
    exact ⟨rfl, fun e he => absurd he (List.not_mem_nil e)⟩
  · rw [handleFormSubmission_valid doc form ts hv]
    refine ⟨rfl, fun e he hname => ?_⟩
    rcases List.mem_cons.mp he with rfl | he2
    · exact List.mem_cons_self _ _
    · rcases List.mem_cons.mp he2 with rfl | he3
      · simp at hname
      · exact absurd he3 (List.not_mem_nil e)

/-- Witness for C9: a concrete payload and a fieldless form, whose
submission succeeds and shows the default success message. -/
theorem transport_always_succeeds_witness :
    (submitForm [("email", "a@b.co")] "early-access" =
      (FORM_TIMEOUT, Except.ok ⟨true, "Form submitted successfully"⟩)) ∧
    (((handleFormSubmission [] (Form.mk [] false [] none) "t").events.filter
        (fun e => e.name == "form_submission_error")) = []) ∧
    ("type", "success") ∈
      (TrackedEvent.mk "message_display"
        [("type", "success"), ("message", "Form submitted successfully!")]).payload :=
  ⟨transport_always_succeeds.1 [("email", "a@b.co")] "early-access",
   (transport_always_succeeds.2 [] (Form.mk [] false [] none) "t").1,
   (transport_always_succeeds.2 [] (Form.mk [] false [] none) "t").2
     (TrackedEvent.mk "message_display"
       [("type", "success"), ("message", "Form submitted successfully!")])
     (by decide) rfl⟩

/-! ## Section observer lemmas -/

theorem mem_addClass (classes : List String) (c d : String) :
    d ∈ addClass classes c ↔ (d ∈ classes ∨ d = c) := by
  unfold addClass
  split_ifs with h
  · constructor
    · exact Or.inl
    · rintro (h1 | rfl)
      · exact h1
      · exact h
  · simp [List.mem_append]

theorem addClass_of_mem {classes : List String} {c : String} (h : c ∈ classes) :
    addClass classes c = classes := by
  simp [addClass, h]

theorem addVisibleLoaded_idem (cl : List String) :
    addClass (addClass (addClass (addClass cl "visible") "loaded") "visible") "loaded"
      = addClass (addClass cl "visible") "loaded" := by
  have hv : "visible" ∈ addClass (addClass cl "visible") "loaded" :=
    (mem_addClass _ _ _).mpr (Or.inl ((mem_addClass _ _ _).mpr (Or.inr rfl)))
  have hl : "loaded" ∈ addClass (addClass cl "visible") "loaded" :=
    (mem_addClass _ _ _).mpr (Or.inr rfl)
  rw [addClass_of_mem hv, addClass_of_mem hl]

theorem initScrollAnimations_len (cs : List Bool) :
    ∀ s : Section, (initScrollAnimations s cs).2.length = cs.count true := by
  induction cs with
  | nil => intro s; rfl
  | cons c cs ih =>
    intro s
    cases c
    · simpa [initScrollAnimations, sectionObserverStep, List.count_cons] using ih s
    · simp [initScrollAnimations, sectionObserverStep, List.count_cons, ih]

theorem initScrollAnimations_names (cs : List Bool) :
    ∀ s : Section, ∀ e ∈ (initScrollAnimations s cs).2, e.name = "section_view" := by
  induction cs with
  | nil => intro s e he; simp [initScrollAnimations] at he
  | cons c cs ih =>
    intro s e he
    cases c
    · simp only [initScrollAnimations, sectionObserverStep, if_neg Bool.false_ne_true,
        List.nil_append] at he
      exact ih s e he
    · simp only [initScrollAnimations, sectionObserverStep, if_pos rfl,
        List.singleton_append] at he
      rcases List.mem_cons.mp he with rfl | he2
      · rfl
      · exact ih _ e he2

theorem initScrollAnimations_classes (cs : List Bool) :
    ∀ s : Section, (initScrollAnimations s cs).1.classes =
      if true ∈ cs then addClass (addClass s.classes "visible") "loaded"
      else s.classes := by
  induction cs with
  | nil => intro s; simp [initScrollAnimations]
  | cons c cs ih =>
    intro s
    cases c
    · simp only [initScrollAnimations, sectionObserverStep, if_neg Bool.false_ne_true]
      rw [ih s]
      simp [List.mem_cons]
    · simp only [initScrollAnimations, sectionObserverStep, eq_self_iff_true, if_true]
      rw [ih ⟨s.id, addClass (addClass s.classes "visible") "loaded"⟩]
      simp only [List.mem_cons, true_or, if_true]
      split_ifs with h
      · exact addVisibleLoaded_idem s.classes
      · rfl

theorem initScrollAnimations_payload (cs : List Bool) :
    ∀ s : Section, s.id ≠ "" →
      ∀ e ∈ (initScrollAnimations s cs).2, e.payload = [("section", s.id)] := by
  induction cs with
  | nil => intro s _ e he; simp [initScrollAnimations] at he
  | cons c cs ih =>
    intro s hid e he
    cases c
    · simp only [initScrollAnimations, sectionObserverStep, if_neg Bool.false_ne_true,
        List.nil_append] at he
      exact ih s hid e he
    · simp only [initScrollAnimations, sectionObserverStep, if_pos rfl,
        List.singleton_append] at he
      rcases List.mem_cons.mp he with rfl | he2
      · simp [sectionIdOf, hid]
      · exact ih ⟨s.id, addClass (addClass s.classes "visible") "loaded"⟩ hid e he2

/-- C3 (amended): for an observed page section, the first intersection
crossing marks it visible (adds the visible and loaded classes) and
records a section_view event keyed by the section's identity, and later
crossings are no-ops for display purposes (the class list never changes
again); however the observer is never unsubscribed, so every later
intersecting crossing records one further section_view event rather than
none: the number of section_view events equals the number of
intersecting crossings. -/
theorem section_observer_first_crossing (s : Section) (cs : List Bool) :
    ((initScrollAnimations s cs).2.length = cs.count true) ∧
    (∀ e ∈ (initScrollAnimations s cs).2, e.name = "section_view") ∧
    ((initScrollAnimations s cs).1.classes =
      if true ∈ cs then addClass (addClass s.classes "visible") "loaded"
      else s.classes) ∧
    (s.id ≠ "" → ∀ e ∈ (initScrollAnimations s cs).2,
      e.payload = [("section", s.id)]) :=
  ⟨initScrollAnimations_len cs s, initScrollAnimations_names cs s,
   initScrollAnimations_classes cs s, initScrollAnimations_payload cs s⟩

/-- C3 counterexample: a section crossing the threshold twice records
two section_view events, not one, even though the second crossing leaves
the display classes unchanged. -/
theorem section_observer_first_crossing_counterexample :
    ((initScrollAnimations ⟨"about", ["loading"]⟩ [true, true]).2.map TrackedEvent.name
      = ["section_view", "section_view"]) ∧
    ((initScrollAnimations ⟨"about", ["loading"]⟩ [true, true]).1.classes =
      (initScrollAnimations ⟨"about", ["loading"]⟩ [true]).1.classes) := by
  decide

/-- Witness for C3 (amended) at a concrete section and crossing trace. -/
theorem section_observer_first_crossing_witness :
    ((initScrollAnimations ⟨"services", ["loading"]⟩ [true, false, true]).2.length = 2) ∧
    (∀ e ∈ (initScrollAnimations ⟨"services", ["loading"]⟩ [true, false, true]).2,
      e.payload = [("section", "services")]) :=
  ⟨(section_observer_first_crossing ⟨"services", ["loading"]⟩ [true, false, true]).1,
   (section_observer_first_crossing ⟨"services", ["loading"]⟩
      [true, false, true]).2.2.2 (by decide)⟩

/-! ## One-shot observer lemmas -/

theorem oneShotRun_unobserved (ev : TrackedEvent) (cs : List Bool) :
    (oneShotRun ev false cs).2 = [] := by
  induction cs with
  | nil => rfl
  | cons c cs ih => simp [oneShotRun, ih]

theorem oneShotRun_observed (ev : TrackedEvent) (cs : List Bool) :
    (oneShotRun ev true cs).2 = if true ∈ cs then [ev] else [] := by
  induction cs with
  | nil => rfl
  | cons c cs ih =>
    cases c
    · simpa [oneShotRun, List.mem_cons] using ih
    · simp [oneShotRun, oneShotRun_unobserved]

/-- C8: an element observed under the one-shot pattern (a service card
or a business-goal section) yields exactly one recorded event however
many times it crosses the visibility threshold, because the first
crossing unobserves it. -/
theorem one_shot_single_event (classes : List String) (sectionId : String)
    (cs : List Bool) (h : true ∈ cs) :
    trackServiceInterest classes cs =
      [⟨"service_interest", [("service", getServiceType classes), ("action", "view")]⟩] ∧
    trackBusinessGoals sectionId cs =
      [⟨"business_goal", [("goal", "view_" ++ sectionId)]⟩] := by
  unfold trackServiceInterest trackBusinessGoals
  rw [oneShotRun_observed, oneShotRun_observed]
  simp [h]

/-- Witness for C8: a card and a section scrolled in, out, and back in
each record exactly one event. -/
theorem one_shot_single_event_witness :
    trackServiceInterest ["service-card", "healthcare"] [true, false, true] =
      [⟨"service_interest", [("service", "healthcare"), ("action", "view")]⟩] ∧
    trackBusinessGoals "services" [true, false, true] =
      [⟨"business_goal", [("goal", "view_services")]⟩] := by
  obtain ⟨h1, h2⟩ := one_shot_single_event ["service-card", "healthcare"] "services"
    [true, false, true] (by decide)
  refine ⟨by rw [h1]; decide, by rw [h2]; decide⟩

/-! ## Message display -/

/-- C10: every showMessage call removes all existing message elements
before appending the new one, so immediately after any call exactly one
element matching the .message selector exists in the document. -/
theorem show_message_single (doc : List MessageElem) (text kind : String) :
    ((showMessage doc text kind).1.filter
      (fun m => m.classes.contains "message")).length = 1 ∧
    (showMessage doc text kind).1 =
      removeExistingMessages doc ++ [mkMessage text kind] := by
  refine ⟨?_, rfl⟩
  show ((removeExistingMessages doc ++ [mkMessage text kind]).filter
    (fun m => m.classes.contains "message")).length = 1
  rw [List.filter_append]
  have h1 : (removeExistingMessages doc).filter
      (fun m => m.classes.contains "message") = [] := by
    unfold removeExistingMessages
    rw [List.filter_filter]
    simp
  have h2 : ([mkMessage text kind]).filter
      (fun m => m.classes.contains "message") = [mkMessage text kind] := rfl
  rw [h1, h2]
  rfl

end KBRJ
